import Mathlib

set_option maxRecDepth 8000

/-!
# Verification of the ist-publications submission workflow and email pipeline

Shallow embedding of the step-gated submission state machine
(`submissions/views.py`, `submissions/serializers.py`) and of the email
template-render-send-log-retry pipeline (`emails/services.py`,
`emails/models.py`).

Conventions of the embedding:
* Python strings are modelled as `List Char` (named `Str` below); Python's
  `str.split()`, `str.strip()`, `str.lower()` and the regular expressions used
  by the serializers are translated into executable Lean functions on
  `List Char`.
* Django rows are Lean structures; the database tables touched by the email
  pipeline are `List` values kept in row-creation order (`created_at`
  ascending), which is the order `order_by` on creation time returns.
* Fallible Python code (raised exceptions) is modelled with `Except`;
  functions that catch every exception and report through return values are
  total Lean functions.
* The Django model classes `Submission` (the step-machine variant),
  `SubmissionStep1` .. `SubmissionStep5` are imported by the views but their
  class bodies are not part of the source tree; the few facts the views need
  from them (field defaults of lazily created sub-records, and
  `mark_as_submitted`) are modelled from the spec and marked as such.
-/

/-- Python strings are modelled as lists of characters. -/
abbrev Str := List Char

/-- The opening brace character, written via its code point. -/
def braceL : Char := '\x7b'

/-- The closing brace character, written via its code point. -/
def braceR : Char := '\x7d'

/-! ## Python string primitives used by the validators -/

/-- Auxiliary word counter: `wordCountAux s inWord` counts the
whitespace-separated words of `s`, where `inWord` records whether the scan is
currently inside a word.  `wordCountAux s false` equals Python's
`len(s.split())`. -/
def wordCountAux : Str → Bool → Nat
  | [], _ => 0
  | c :: rest, inWord =>
    if c.isWhitespace then wordCountAux rest false
    else (if inWord then 0 else 1) + wordCountAux rest true

/-- `len(value.split())`: the number of maximal whitespace-free runs. -/
def pyWordCount (s : Str) : Nat := wordCountAux s false

/-- `value.strip()`: drop leading and trailing whitespace. -/
def pyStrip (s : Str) : Str :=
  ((s.dropWhile Char.isWhitespace).reverse.dropWhile Char.isWhitespace).reverse

/-- `value.lower()` (ASCII lowering, as the serializers only feed ASCII). -/
def pyLower (s : Str) : Str := s.map Char.toLower

/-- `re.search(r'<[^>]+>', value)` is truthy: the string contains `<`
followed by at least one character other than `>` and then a `>`. -/
def hasHtmlTag : Str → Bool
  | [] => false
  | c :: rest =>
    (c = '<' &&
      (match rest with
       | [] => false
       | d :: _ => d ≠ '>' && rest.contains '>'))
    || hasHtmlTag rest

/-! ## Step validators (`submissions/serializers.py`) -/

/-- `WordCountValidator.__call__` (serializers.py:18-42): empty text is
rejected, then the whitespace word count must lie in `[min_words, max_words]`.
Error messages carry the offending count, as in the source f-strings. -/
def wordCountValidator (min_words max_words : Nat) (value : Str) :
    Except String Unit :=
  if value = [] then .error "Text cannot be empty"
  else
    let word_count := pyWordCount value
    if word_count < min_words then
      .error ("Abstract must have at least " ++ toString min_words ++
        " words. Current: " ++ toString word_count ++ " words")
    else if word_count > max_words then
      .error ("Abstract must have at most " ++ toString max_words ++
        " words. Current: " ++ toString word_count ++ " words")
    else .ok ()

/-- `SubmissionStep2Serializer.validate_abstract` (serializers.py:172-193):
reject empty / whitespace-only values, strip, reject HTML tags, then apply
`WordCountValidator(150, 200)`; on success the stripped value is stored. -/
def validate_abstract (value : Str) : Except String Str :=
  if value = [] || pyStrip value = [] then .error "Abstract cannot be empty"
  else
    let v := pyStrip value
    if hasHtmlTag v then .error "Abstract cannot contain HTML tags"
    else
      match wordCountValidator 150 200 v with
      | .error m => .error m
      | .ok _ => .ok v

/-- Whether an `Except` result is a success. -/
def exceptOk : Except ε α → Bool
  | .ok _ => true
  | .error _ => false

/-- `n` one-character words separated by single spaces: a canonical abstract
with exactly `n` whitespace-separated words and no markup. -/
def mkWords : Nat → Str
  | 0 => []
  | 1 => ['w']
  | n + 2 => 'w' :: ' ' :: mkWords (n + 1)

/-! ## Data model of the step machine (`submissions/views.py` imports)

The step sub-record model classes are absent from the source tree; their
shape is reconstructed from the serializers `Meta.fields` lists, and their
field defaults from the spec (sub-records start empty). -/

/-- Step 1 sub-record: guidelines and agreements
(fields per `SubmissionStep1Serializer.Meta`). -/
structure Step1Record where
  step1_comments : Str
  agrees_to_copyright : Bool
  agrees_to_privacy : Bool
  agrees_to_policies : Bool
deriving DecidableEq

/-- Step 2 sub-record: metadata (fields per `SubmissionStep2Serializer.Meta`). -/
structure Step2Record where
  title : Str
  abstract : Str
  keywords : Str
  category : Str
deriving DecidableEq

/-- Step 3 sub-record: one file-metadata entry
(fields per `SubmissionStep3Serializer.Meta`; `storage_path` is read-only in
the serializer and never written by the view, so it is omitted). -/
structure FileRecord where
  file_name : Str
  file_size : Int
  file_type : Str
deriving DecidableEq

/-- Step 4 sub-record: one suggested reviewer
(fields per `SubmissionStep4Serializer.Meta`).  The source field
`reviewer_prefix` is called `reviewer_pfx` here for tooling reasons. -/
structure ReviewerRecord where
  reviewer_number : Nat
  reviewer_pfx : Str
  reviewer_name : Str
  reviewer_email : Str
  reviewer_department : Str
  reviewer_affiliation : Str
deriving DecidableEq

/-- Step 5 sub-record: final confirmation
(fields per `SubmissionStep5Serializer.Meta`). -/
structure Step5Record where
  final_agrees_copyright : Bool
  final_agrees_privacy : Bool
  confirms_submission : Bool
deriving DecidableEq

/-- Submission status enum of the step machine (`DRAFT` / `SUBMITTED`). -/
inductive SubmissionStatus
  | DRAFT
  | SUBMITTED
deriving DecidableEq, Repr

/-- The aggregate submission row together with its owned sub-records.
`step3_files` and `step4_reviewers` are kept in row-creation order. -/
structure Submission where
  submission_id : Str
  author_name : Str
  author_email : Str
  current_step : Nat
  status : SubmissionStatus
  is_locked : Bool
  submitted_at : Option Nat
  step1 : Option Step1Record
  step2 : Option Step2Record
  step3_files : List FileRecord
  step4_reviewers : List ReviewerRecord
  step5 : Option Step5Record
deriving DecidableEq

/-- Modelled from the spec: `Submission.mark_as_submitted` lives in the model
class absent from the source tree; per spec section 4.4, finalize `sets
status = SUBMITTED, locked = true, submitted_at = now`. -/
def mark_as_submitted (sub : Submission) (now : Nat) : Submission :=
  { sub with status := .SUBMITTED, is_locked := true, submitted_at := some now }

/-- Modelled from the spec: a lazily created Step 1 sub-record starts with
empty agreements (views.py:93-94 creates the record with no field values, and
spec section 3 has sub-records created empty). -/
def emptyStep1 : Step1Record := ⟨[], false, false, false⟩

/-- Modelled from the spec: a lazily created Step 2 sub-record starts with
blank fields. -/
def emptyStep2 : Step2Record := ⟨[], [], [], []⟩

/-- Modelled from the spec: a lazily created Step 5 sub-record starts with all
confirmations unset. -/
def emptyStep5 : Step5Record := ⟨false, false, false⟩

/-! ## Request payloads

Step 1 is saved with `partial=True`, so every field may be absent; steps 2-5
are saved with `partial=False` (all fields required), so their payloads carry
every field. -/

/-- Step 1 request body (all fields optional, `partial=True`). -/
structure Step1Payload where
  step1_comments : Option Str
  agrees_to_copyright : Option Bool
  agrees_to_privacy : Option Bool
  agrees_to_policies : Option Bool
deriving DecidableEq

/-- Step 2 request body. -/
structure Step2Payload where
  title : Str
  abstract : Str
  keywords : Str
  category : Str
deriving DecidableEq

/-- One entry of the step 3 `files` list. -/
structure FilePayload where
  file_name : Str
  file_size : Int
  file_type : Str
deriving DecidableEq

/-- One entry of the step 4 `reviewers` list (`reviewer_number` is assigned by
the view, not the client).  The source field `reviewer_prefix` is called
`reviewer_pfx` here for tooling reasons. -/
structure ReviewerPayload where
  reviewer_pfx : Str
  reviewer_name : Str
  reviewer_email : Str
  reviewer_department : Str
  reviewer_affiliation : Str
deriving DecidableEq

/-- Step 5 request body. -/
structure Step5Payload where
  final_agrees_copyright : Bool
  final_agrees_privacy : Bool
  confirms_submission : Bool
deriving DecidableEq

/-! ## Remaining serializer validators -/

/-- `SubmissionStep2Serializer.validate_title` (serializers.py:142-170). -/
def validate_title (value : Str) : Except String Str :=
  if value = [] || pyStrip value = [] then .error "Title cannot be empty"
  else
    let v := pyStrip value
    if v.length < 5 then
      .error ("Title must be at least 5 characters. Current: " ++ toString v.length)
    else if v.length > 300 then
      .error ("Title must be at most 300 characters. Current: " ++ toString v.length)
    else if hasHtmlTag v then .error "Title cannot contain HTML tags"
    else .ok v

/-- `KeywordValidator.__call__` (serializers.py:58-76): split on commas, strip
each entry, drop empties, and require between 2 and 10 entries. -/
def keywordValidator (value : Str) : Except String Unit :=
  if value = [] || pyStrip value = [] then .error "Keywords cannot be empty"
  else
    let keywords := ((value.splitOn ',').map pyStrip).filter (fun k => k ≠ [])
    if keywords.length < 2 then
      .error "At least 2 keywords are required (comma-separated)"
    else if keywords.length > 10 then .error "Maximum 10 keywords allowed"
    else .ok ()

/-- `SubmissionStep2Serializer.validate_keywords` (serializers.py:195-208);
note the stored value is the original, unstripped string. -/
def validate_keywords (value : Str) : Except String Str :=
  if value = [] || pyStrip value = [] then .error "Keywords cannot be empty"
  else
    match keywordValidator value with
    | .error m => .error m
    | .ok _ => .ok value

/-- The fixed category enumeration (serializers.py:212-215). -/
def validCategories : List Str :=
  ["ai".data, "architecture".data, "basic".data, "biomedical".data,
   "business".data, "cs".data, "data".data, "economics".data,
   "engineering".data, "management".data]

/-- `SubmissionStep2Serializer.validate_category` (serializers.py:210-223). -/
def validate_category (value : Str) : Except String Str :=
  if ¬ validCategories.contains value then
    .error ("Invalid category: " ++ String.mk value ++
      ". Must be one of: ai, architecture, basic, biomedical, business, cs, data, economics, engineering, management")
  else .ok value

/-- Collect the DRF field-to-message mapping entry for one field. -/
def fieldErrors (field : String) : Except String α → List (String × String)
  | .error m => [(field, m)]
  | .ok _ => []

/-- `SubmissionStep1Serializer.is_valid` with `partial=True`: each
`validate_agrees_*` method runs only on fields present in the payload and
rejects a false value (serializers.py:98-120). -/
def validateStep1 (p : Step1Payload) : Except (List (String × String)) Unit :=
  let errors :=
    (match p.agrees_to_copyright with
     | some false =>
       [("agrees_to_copyright", "You must agree to copyright terms to proceed")]
     | _ => []) ++
    (match p.agrees_to_privacy with
     | some false =>
       [("agrees_to_privacy", "You must agree to privacy policy to proceed")]
     | _ => []) ++
    (match p.agrees_to_policies with
     | some false =>
       [("agrees_to_policies", "You must agree to submission policies to proceed")]
     | _ => [])
  if errors = [] then .ok () else .error errors

/-- `serializer.save()` for step 1 (`partial=True`): fields present in the
payload overwrite the stored sub-record, absent fields are kept. -/
def applyStep1 (r : Step1Record) (p : Step1Payload) : Step1Record :=
  { step1_comments := p.step1_comments.getD r.step1_comments,
    agrees_to_copyright := p.agrees_to_copyright.getD r.agrees_to_copyright,
    agrees_to_privacy := p.agrees_to_privacy.getD r.agrees_to_privacy,
    agrees_to_policies := p.agrees_to_policies.getD r.agrees_to_policies }

/-- `SubmissionStep2Serializer.is_valid` (`partial=False`): every field is
validated independently; on success the validated (possibly stripped) values
form the new sub-record, otherwise the per-field errors are collected in field
order. -/
def validateStep2 (p : Step2Payload) : Except (List (String × String)) Step2Record :=
  match validate_title p.title, validate_abstract p.abstract,
      validate_keywords p.keywords, validate_category p.category with
  | .ok t, .ok a, .ok k, .ok c => .ok ⟨t, a, k, c⟩
  | rt, ra, rk, rc =>
    .error (fieldErrors "title" rt ++ fieldErrors "abstract" ra ++
      fieldErrors "keywords" rk ++ fieldErrors "category" rc)

/-- `SubmissionStep3Serializer.validate_file_name` (serializers.py:248-253). -/
def validate_file_name (value : Str) : Except String Str :=
  if value = [] || pyStrip value = [] then .error "File name cannot be empty"
  else .ok value

/-- `SubmissionStep3Serializer.validate_file_size` (serializers.py:255-273):
at most 10 MB and strictly positive, checked in that order.  The source
interpolates the size in MB with two decimals into the first message; that
floating-point rendering is not reproduced, the guard is. -/
def validate_file_size (value : Int) : Except String Int :=
  let max_size : Int := 10 * 1024 * 1024
  if value > max_size then .error "File size exceeds maximum of 10 MB"
  else if value ≤ 0 then .error "File size must be greater than 0"
  else .ok value

/-- The fixed file-type enumeration (serializers.py:280). -/
def validFileTypes : List Str := ["pdf".data, "docx".data, "rtf".data]

/-- `SubmissionStep3Serializer.validate_file_type` (serializers.py:275-288). -/
def validate_file_type (value : Str) : Except String Str :=
  if ¬ validFileTypes.contains value then
    .error ("Invalid file type: " ++ String.mk value ++
      ". Allowed types: pdf, docx, rtf")
  else .ok value

/-- `SubmissionStep3Serializer.is_valid` for one `files` entry. -/
def validateFile (f : FilePayload) : Except (List (String × String)) FileRecord :=
  match validate_file_name f.file_name, validate_file_size f.file_size,
      validate_file_type f.file_type with
  | .ok n, .ok s, .ok t => .ok ⟨n, s, t⟩
  | rn, rs, rt =>
    .error (fieldErrors "file_name" rn ++ fieldErrors "file_size" rs ++
      fieldErrors "file_type" rt)

/-- The reviewer title choices of `validate_reviewer_prefix`
(serializers.py:314). -/
def reviewerTitleChoices : List Str :=
  ["Dr".data, "Prof".data, "Mr".data, "Ms".data]

/-- `SubmissionStep4Serializer.validate_reviewer_prefix`
(serializers.py:312-322). -/
def validate_reviewer_pfx (value : Str) : Except String Str :=
  if ¬ reviewerTitleChoices.contains value then
    .error ("Invalid prefix: " ++ String.mk value ++
      ". Must be one of: Dr, Prof, Mr, Ms")
  else .ok value

/-- `SubmissionStep4Serializer.validate_reviewer_name`
(serializers.py:324-339): length bounds are checked on the raw value, the
stripped value is stored. -/
def validate_reviewer_name (value : Str) : Except String Str :=
  if value = [] || pyStrip value = [] then .error "Reviewer name cannot be empty"
  else if value.length < 3 then
    .error "Reviewer name must be at least 3 characters"
  else if value.length > 255 then
    .error "Reviewer name must be at most 255 characters"
  else .ok (pyStrip value)

/-- Characters matched by `[a-zA-Z0-9._%+-]` in `EmailFormatValidator`. -/
def emailLocalChar (c : Char) : Bool :=
  c.isAlpha || c.isDigit || c = '.' || c = '_' || c = '%' || c = '+' || c = '-'

/-- Characters matched by `[a-zA-Z0-9.-]`. -/
def emailDomainChar (c : Char) : Bool :=
  c.isAlpha || c.isDigit || c = '.' || c = '-'

/-- The part after `@` must match `[a-zA-Z0-9.-]+\.[a-zA-Z]{2,}$`: some
split point gives a non-empty domain-character run, a dot, and a final
alphabetic run of length at least 2. -/
def matchEmailDomain (r : Str) : Bool :=
  (List.range r.length).any (fun i =>
    match r.drop i with
    | '.' :: tld =>
      decide (0 < i) && (r.take i).all emailDomainChar &&
        decide (2 ≤ tld.length) && tld.all Char.isAlpha
    | _ => false)

/-- Anchored match of the email pattern of `EmailFormatValidator`
(serializers.py:50): a non-empty local-character run, `@`, then the domain. -/
def matchEmailCore (s : Str) : Bool :=
  let l := s.takeWhile emailLocalChar
  match s.drop l.length with
  | '@' :: r => decide (l ≠ []) && matchEmailDomain r
  | _ => false

/-- `re.match(email_regex, value)` is truthy.  Python `$` also matches just
before a final newline, hence the second disjunct. -/
def reMatchEmail (s : Str) : Bool :=
  matchEmailCore s ||
  (match s.getLast? with
   | some c => decide (c = Char.ofNat 10) && matchEmailCore s.dropLast
   | none => false)

/-- `SubmissionStep4Serializer.validate_reviewer_email`
(serializers.py:341-350): non-empty, matches the fixed regex, stored
lower-cased. -/
def validate_reviewer_email (value : Str) : Except String Str :=
  if value = [] || pyStrip value = [] then
    .error "Reviewer email cannot be empty"
  else if reMatchEmail value = false then
    .error ("Invalid email format: " ++ String.mk value)
  else .ok (pyLower value)

/-- `SubmissionStep4Serializer.validate_reviewer_department`
(serializers.py:352-362). -/
def validate_reviewer_department (value : Str) : Except String Str :=
  if value = [] || pyStrip value = [] then .error "Department cannot be empty"
  else if value.length > 200 then
    .error "Department must be at most 200 characters"
  else .ok (pyStrip value)

/-- `SubmissionStep4Serializer.validate_reviewer_affiliation`
(serializers.py:364-374). -/
def validate_reviewer_affiliation (value : Str) : Except String Str :=
  if value = [] || pyStrip value = [] then .error "Affiliation cannot be empty"
  else if value.length > 200 then
    .error "Affiliation must be at most 200 characters"
  else .ok (pyStrip value)

/-- `SubmissionStep4Serializer.is_valid` for one reviewer entry, with the
view-assigned `reviewer_number`. -/
def validateReviewer (reviewer_number : Nat) (r : ReviewerPayload) :
    Except (List (String × String)) ReviewerRecord :=
  match validate_reviewer_pfx r.reviewer_pfx,
      validate_reviewer_name r.reviewer_name,
      validate_reviewer_email r.reviewer_email,
      validate_reviewer_department r.reviewer_department,
      validate_reviewer_affiliation r.reviewer_affiliation with
  | .ok px, .ok nm, .ok em, .ok dp, .ok af =>
    .ok ⟨reviewer_number, px, nm, em, dp, af⟩
  | rp, rn, re, rd, ra =>
    .error (fieldErrors "reviewer_prefix" rp ++ fieldErrors "reviewer_name" rn ++
      fieldErrors "reviewer_email" re ++ fieldErrors "reviewer_department" rd ++
      fieldErrors "reviewer_affiliation" ra)

/-- `SubmissionStep5Serializer.is_valid`: all three confirmations must be
true (serializers.py:395-417). -/
def validateStep5 (p : Step5Payload) : Except (List (String × String)) Step5Record :=
  let errors :=
    (if p.final_agrees_copyright then []
     else [("final_agrees_copyright", "You must agree to copyright terms to submit")]) ++
    (if p.final_agrees_privacy then []
     else [("final_agrees_privacy", "You must agree to privacy policy to submit")]) ++
    (if p.confirms_submission then []
     else [("confirms_submission", "You must confirm submission to proceed")])
  if errors = [] then
    .ok ⟨p.final_agrees_copyright, p.final_agrees_privacy, p.confirms_submission⟩
  else .error errors

/-! ## The step-gate views (`submissions/views.py`) -/

/-- The JSON envelope shapes a step view can answer with:
`ok` is HTTP 200 `{success, message, submission}`; `locked` is HTTP 403;
`badRequest` is HTTP 400 with a single `error` string (the step-order and
list-shape guards); `validationFailed` is HTTP 400 with the serializer
`errors` mapping. -/
inductive StepOutcome
  | ok (msg : String)
  | locked (msg : String)
  | badRequest (msg : String)
  | validationFailed (errors : List (String × String))
deriving DecidableEq

/-- HTTP status code of a `StepOutcome`. -/
def StepOutcome.httpStatus : StepOutcome → Nat
  | .ok _ => 200
  | .locked _ => 403
  | .badRequest _ => 400
  | .validationFailed _ => 400

/-- Whether a `StepOutcome` is the success envelope. -/
def StepOutcome.isOk : StepOutcome → Bool
  | .ok _ => true
  | _ => false

/-- Whether a `StepOutcome` is a serializer-validation failure. -/
def StepOutcome.isValidationFailed : StepOutcome → Bool
  | .validationFailed _ => true
  | _ => false

/-- `SaveStep1View.post` (views.py:144-197): lock check, `get_or_create` of
the step 1 row, serializer validation (`partial=True`), save, then
`current_step = 2` unconditionally. -/
def saveStep1 (sub : Submission) (p : Step1Payload) : StepOutcome × Submission :=
  if sub.is_locked then
    (.locked "Submission is locked and cannot be edited", sub)
  else
    let step1 := sub.step1.getD emptyStep1
    let sub1 := { sub with step1 := some step1 }
    match validateStep1 p with
    | .error errs => (.validationFailed errs, sub1)
    | .ok _ =>
      (.ok "Step 1 saved successfully",
        { sub1 with step1 := some (applyStep1 step1 p), current_step := 2 })

/-- `SaveStep2View.post` (views.py:244-307): lock check, step-order check
(`current_step < 2`), `get_or_create` of the step 2 row, serializer
validation (`partial=False`), save, then `current_step = 3`. -/
def saveStep2 (sub : Submission) (p : Step2Payload) : StepOutcome × Submission :=
  if sub.is_locked then
    (.locked "Submission is locked and cannot be edited", sub)
  else if sub.current_step < 2 then
    (.badRequest "You must complete Step 1 first", sub)
  else
    let sub1 := { sub with step2 := some (sub.step2.getD emptyStep2) }
    match validateStep2 p with
    | .error errs => (.validationFailed errs, sub1)
    | .ok r =>
      (.ok "Step 2 saved successfully",
        { sub1 with step2 := some r, current_step := 3 })

/-- The per-file save loop of `SaveStep3View.post` (views.py:427-436): each
entry is validated and, if valid, immediately persisted as a new file row;
the first invalid entry aborts the loop with its errors, keeping the rows
already saved. -/
def saveFilesLoop (sub : Submission) :
    List FilePayload → Option (List (String × String)) × Submission
  | [] => (none, sub)
  | f :: rest =>
    match validateFile f with
    | .error errs => (some errs, sub)
    | .ok r =>
      saveFilesLoop { sub with step3_files := sub.step3_files ++ [r] } rest

/-- `SaveStep3View.post` (views.py:400-451): lock check, step-order check
(`current_step < 3`), non-empty `files` check, per-file save loop, then
`current_step = 4`. -/
def saveStep3 (sub : Submission) (files : List FilePayload) :
    StepOutcome × Submission :=
  if sub.is_locked then (.locked "Submission is locked", sub)
  else if sub.current_step < 3 then
    (.badRequest "You must complete Steps 1 & 2 first", sub)
  else if files = [] then
    (.badRequest "At least one file is required", sub)
  else
    match saveFilesLoop sub files with
    | (some errs, sub1) => (.validationFailed errs, sub1)
    | (none, sub1) =>
      (.ok ("Step 3 saved successfully (" ++ toString files.length ++ " files)"),
        { sub1 with current_step := 4 })

/-- The per-reviewer save loop of `SaveStep4View.post` (views.py:500-510):
reviewers are numbered from 1 in list order, validated, and each valid entry
is immediately persisted; the first invalid entry aborts the loop with its
errors, keeping the rows already saved. -/
def saveReviewersLoop (sub : Submission) (idx : Nat) :
    List ReviewerPayload → Option (List (String × String)) × Submission
  | [] => (none, sub)
  | r :: rest =>
    match validateReviewer idx r with
    | .error errs => (some errs, sub)
    | .ok rec =>
      saveReviewersLoop
        { sub with step4_reviewers := sub.step4_reviewers ++ [rec] } (idx + 1) rest

/-- `SaveStep4View.post` (views.py:467-525): lock check, step-order check
(`current_step < 4`), 1-2 reviewer list-shape checks, per-reviewer save loop,
then `current_step = 5`. -/
def saveStep4 (sub : Submission) (reviewers : List ReviewerPayload) :
    StepOutcome × Submission :=
  if sub.is_locked then (.locked "Submission is locked", sub)
  else if sub.current_step < 4 then
    (.badRequest "You must complete Steps 1-3 first", sub)
  else if reviewers = [] then
    (.badRequest "At least one reviewer is required", sub)
  else if reviewers.length > 2 then
    (.badRequest "Maximum 2 reviewers allowed", sub)
  else
    match saveReviewersLoop sub 1 reviewers with
    | (some errs, sub1) => (.validationFailed errs, sub1)
    | (none, sub1) =>
      (.ok ("Step 4 saved successfully (" ++ toString reviewers.length ++
          " reviewers)"),
        { sub1 with current_step := 5 })

/-- `SaveStep5View.post` (views.py:541-591): lock check, step-order check
(`current_step < 5`), `get_or_create` of the step 5 row, serializer
validation, save, then `current_step = 6`. -/
def saveStep5 (sub : Submission) (p : Step5Payload) : StepOutcome × Submission :=
  if sub.is_locked then (.locked "Submission is locked", sub)
  else if sub.current_step < 5 then
    (.badRequest "You must complete Steps 1-4 first", sub)
  else
    let sub1 := { sub with step5 := some (sub.step5.getD emptyStep5) }
    match validateStep5 p with
    | .error errs => (.validationFailed errs, sub1)
    | .ok r =>
      (.ok "Step 5 saved successfully. Ready to submit!",
        { sub1 with step5 := some r, current_step := 6 })

/-- An invocation of the email pipeline as observable from the views. -/
inductive EmailCall
  | submissionConfirmation (recipient : Str)
  | adminNotification (recipient : Str)
deriving DecidableEq

/-- `FinalizeSubmissionView.post` (views.py:607-638): lock check, completeness
check (`current_step < 6`), then `mark_as_submitted`.  The third component is
the trace of email-pipeline invocations the view performs: the source has
only `# TODO: Send emails (implemented in Day 9)` at views.py:627, so the
trace is empty in every branch, while the success message still claims that
emails have been sent. -/
def finalizeSubmission (sub : Submission) (now : Nat) :
    StepOutcome × Submission × List EmailCall :=
  if sub.is_locked then (.locked "Submission is already locked", sub, [])
  else if sub.current_step < 6 then
    (.badRequest "You must complete all steps first", sub, [])
  else
    (.ok "Submission finalized successfully! Emails have been sent.",
      mark_as_submitted sub now, [])

/-! ## The email delivery log (`emails/models.py`) -/

/-- `EmailLog.EMAIL_STATUS_CHOICES` (models.py:93-101). -/
inductive EmailStatus
  | PENDING
  | SENT
  | FAILED
  | BOUNCED
  | OPENED
  | CLICKED
  | RETRYING
deriving DecidableEq, Repr

/-- One `EmailLog` row (models.py:90-176).  `template_used` holds the
referenced template id; times are abstract ticks. -/
structure EmailLog where
  email_id : Nat
  recipient_email : Str
  sender_email : Str
  subject : Str
  email_type : String
  submission_id : Option Str
  status : EmailStatus
  sent_at : Option Nat
  failed_reason : Option String
  read_count : Nat
  retry_count : Nat
  template_used : Option Nat
  created_at : Nat
deriving DecidableEq

/-- `EmailLog.mark_as_sent` (models.py:181-185). -/
def mark_as_sent (log : EmailLog) (now : Nat) : EmailLog :=
  { log with status := .SENT, sent_at := some now }

/-- `EmailLog.mark_as_failed` (models.py:187-191). -/
def mark_as_failed (log : EmailLog) (reason : String) : EmailLog :=
  { log with status := .FAILED, failed_reason := some reason }

/-- `EmailLog.increment_retry` (models.py:193-197). -/
def increment_retry (log : EmailLog) : EmailLog :=
  { log with retry_count := log.retry_count + 1, status := .RETRYING }

/-- The filter of `EmailLog.get_failed_emails`: status FAILED and fewer than
5 retries. -/
def retryEligible (e : EmailLog) : Bool :=
  decide (e.status = .FAILED) && decide (e.retry_count < 5)

/-- `EmailLog.get_failed_emails` (models.py:213-219): all FAILED rows with
`retry_count < 5`, ordered by `created_at` ascending.  The log table is kept
in row-creation order, so the `order_by` is the identity on the filter
result. -/
def get_failed_emails (db : List EmailLog) : List EmailLog :=
  db.filter retryEligible

/-! ## Email templates and rendering (`emails/models.py`) -/

/-- One `EmailTemplate` row (models.py:7-70). -/
structure EmailTemplate where
  template_id : Nat
  name : Str
  email_type : String
  subject : Str
  body_html : Str
  body_text : Option Str
  is_active : Bool
deriving DecidableEq

/-- Failure modes of Python `str.format(**context)`: a placeholder whose name
is not a key of the context (`KeyError`), or a malformed pattern such as an
unmatched brace (`ValueError`). -/
inductive FmtError
  | missingVar (name : Str)
  | badFormat
deriving DecidableEq

/-- Context lookup for `str.format(**context)`. -/
def lookupCtx (ctx : List (Str × Str)) (k : Str) : Option Str :=
  (ctx.find? (fun p => decide (p.1 = k))).map (fun p => p.2)

/-- The scan behind `pyFormat`: the second argument is `none` in literal
mode and `some acc` while collecting a placeholder name after an opening
brace.  Doubled braces are literals; a lone closing brace or an unterminated
placeholder is a `ValueError` in Python, mapped to `badFormat`.  Format
specifications (`:` inside a placeholder) are not modelled; the repository
templates use plain `{name}` placeholders only. -/
def pyFormatAux (ctx : List (Str × Str)) : Str → Option Str → Except FmtError Str
  | [], none => .ok []
  | [], some _ => .error .badFormat
  | [c], none =>
    if c = braceL then .error .badFormat
    else if c = braceR then .error .badFormat
    else .ok [c]
  | c :: d :: rest, none =>
    if c = braceL then
      if d = braceL then (fun t => braceL :: t) <$> pyFormatAux ctx rest none
      else pyFormatAux ctx (d :: rest) (some [])
    else if c = braceR then
      if d = braceR then (fun t => braceR :: t) <$> pyFormatAux ctx rest none
      else .error .badFormat
    else (fun t => c :: t) <$> pyFormatAux ctx (d :: rest) none
  | c :: rest, some acc =>
    if c = braceR then
      match lookupCtx ctx acc with
      | some v => (fun t => v ++ t) <$> pyFormatAux ctx rest none
      | none => .error (.missingVar acc)
    else pyFormatAux ctx rest (some (acc ++ [c]))

/-- Python `tpl.format(**context)`. -/
def pyFormat (tpl : Str) (ctx : List (Str × Str)) : Except FmtError Str :=
  pyFormatAux ctx tpl none

/-- The exceptions `EmailTemplate.render` can raise: `ValueError("Missing
template variable: ...")` re-raised from a `KeyError`, or the formatter
ValueError itself for a malformed pattern (uncaught by the `except KeyError`
clause). -/
inductive RenderError
  | missingVariable (name : Str)
  | formatError
deriving DecidableEq

/-- Map a formatter failure to what leaves `EmailTemplate.render`. -/
def liftFmt : Except FmtError α → Except RenderError α
  | .ok a => .ok a
  | .error (.missingVar n) => .error (.missingVariable n)
  | .error .badFormat => .error .formatError

/-- The rendered subject / HTML body / optional text body triple. -/
structure Rendered where
  subject : Str
  body_html : Str
  body_text : Option Str
deriving DecidableEq

/-- `EmailTemplate.render` (models.py:75-87): format the subject, the HTML
body and, when present, the text body with the context; a `KeyError` becomes
`ValueError("Missing template variable: ...")`. -/
def EmailTemplate.render (t : EmailTemplate) (ctx : List (Str × Str)) :
    Except RenderError Rendered := do
  let subject ← liftFmt (pyFormat t.subject ctx)
  let body_html ← liftFmt (pyFormat t.body_html ctx)
  match t.body_text with
  | none => return ⟨subject, body_html, none⟩
  | some bt => do
    let b ← liftFmt (pyFormat bt ctx)
    return ⟨subject, body_html, some b⟩

/-! ## The email service (`emails/services.py`) -/

/-- The settings and environment the service constructor reads
(services.py:18-20). -/
structure EmailConfig where
  sender_email : Str
  admin_email : Str
  frontend_url : Str
deriving DecidableEq

/-- Outcome of the external transport call `email.send(fail_silently=False)`:
success, an `smtplib.SMTPException`, or any other exception, each with its
description. -/
inductive TransportResult
  | success
  | smtpError (msg : String)
  | otherError (msg : String)
deriving DecidableEq

/-- The `EmailLog.objects.create(..., status=PENDING)` row of
`EmailService.send_email` (services.py:71-80). -/
def mkPendingLog (cfg : EmailConfig) (recipient subject : Str)
    (email_type : String) (submission_id : Option Str)
    (template_used : Option Nat) (freshId now : Nat) : EmailLog :=
  { email_id := freshId,
    recipient_email := recipient,
    sender_email := cfg.sender_email,
    subject := subject,
    email_type := email_type,
    submission_id := submission_id,
    status := .PENDING,
    sent_at := none,
    failed_reason := none,
    read_count := 0,
    retry_count := 0,
    template_used := template_used,
    created_at := now }

/-- `EmailService.send_email` (services.py:45-113): create a PENDING log row,
invoke the transport, and either `mark_as_sent` or `mark_as_failed` with the
exception description ("SMTP Error: ..." for `smtplib.SMTPException`,
"Unexpected error: ..." otherwise); the final row state is returned and
persisted.  Every transport exception is caught, so the function is total:
nothing escapes the pipeline boundary.  The rendered bodies are consumed only
by the transport collaborator, whose outcome is the `transport` argument. -/
def send_email (cfg : EmailConfig) (recipient subject : Str)
    (body_html : Str) (body_text : Option Str) (email_type : String)
    (submission_id : Option Str) (template : Option Nat)
    (transport : TransportResult) (db : List EmailLog) (freshId now : Nat) :
    EmailLog × List EmailLog :=
  let email_log :=
    mkPendingLog cfg recipient subject email_type submission_id template
      freshId now
  let _ := (body_html, body_text)
  match transport with
  | .success =>
    let l := mark_as_sent email_log now
    (l, db ++ [l])
  | .smtpError e =>
    let l := mark_as_failed email_log ("SMTP Error: " ++ e)
    (l, db ++ [l])
  | .otherError e =>
    let l := mark_as_failed email_log ("Unexpected error: " ++ e)
    (l, db ++ [l])

/-- What `EmailService` methods can raise: `ValueError` (missing template for
a convenience sender, or a rendering failure re-raised by `render_template`)
and Django `MultipleObjectsReturned` escaping `EmailTemplate.objects.get`. -/
inductive PyError
  | valueError (msg : String)
  | multipleObjectsReturned
deriving DecidableEq

/-- `EmailService.get_template` (services.py:22-31):
`EmailTemplate.objects.get(email_type=..., is_active=True)` returns the
unique matching row; `DoesNotExist` is caught and yields `None`, but with
several active rows of the type `.get` raises `MultipleObjectsReturned`,
which nothing catches. -/
def get_template (tdb : List EmailTemplate) (template_type : String) :
    Except PyError (Option EmailTemplate) :=
  match tdb.filter (fun t => decide (t.email_type = template_type) && t.is_active) with
  | [] => .ok none
  | [t] => .ok (some t)
  | _ :: _ :: _ => .error .multipleObjectsReturned

/-- The apostrophe character, for Python `str(KeyError)` quoting. -/
def quoteChar : Char := Char.ofNat 39

/-- The `ValueError` message of a rendering failure:
`Missing template variable: ` followed by the quoted name (models.py:87,
where `str(KeyError)` quotes its argument). -/
def missingVarMessage (name : Str) : String :=
  "Missing template variable: " ++ String.mk (quoteChar :: name ++ [quoteChar])

/-- The message of the ValueError leaving `EmailService.render_template`,
which catches a rendering ValueError only to log and re-raise it
(services.py:33-43). -/
def renderErrorMessage : RenderError → String
  | .missingVariable n => missingVarMessage n
  | .formatError => "Single brace encountered in format string"

/-- The context dictionary of `EmailService.send_submission_confirmation`
(services.py:129-136). -/
def submissionConfirmationContext (cfg : EmailConfig)
    (submission_number article_title author_name submission_date : Str) :
    List (Str × Str) :=
  [ ("author_name".data, author_name),
    ("submission_number".data, submission_number),
    ("article_title".data, article_title),
    ("submission_date".data, submission_date),
    ("portal_url".data,
      cfg.frontend_url ++ "/submission/".data ++ submission_number),
    ("support_email".data, cfg.admin_email) ]

/-- `EmailService.send_submission_confirmation` (services.py:115-148): resolve
the active SUBMISSION_CONFIRMATION template (raising `ValueError` when none
exists), build the context, render (a rendering failure is re-raised by
`render_template`, so it escapes to the caller before any log row exists),
and delegate to `send_email`.  The second component is the log table after
the call: unchanged whenever an error is raised. -/
def send_submission_confirmation (cfg : EmailConfig)
    (tdb : List EmailTemplate) (recipient submission_number article_title
    author_name submission_date : Str) (transport : TransportResult)
    (db : List EmailLog) (freshId now : Nat) :
    Except PyError EmailLog × List EmailLog :=
  match get_template tdb "SUBMISSION_CONFIRMATION" with
  | .error e => (.error e, db)
  | .ok none =>
    (.error (.valueError "Submission confirmation template not found"), db)
  | .ok (some template) =>
    let context :=
      submissionConfirmationContext cfg submission_number article_title
        author_name submission_date
    match EmailTemplate.render template context with
    | .error e => (.error (.valueError (renderErrorMessage e)), db)
    | .ok rendered =>
      let r :=
        send_email cfg recipient rendered.subject rendered.body_html
          rendered.body_text "SUBMISSION_CONFIRMATION" (some submission_number)
          (some template.template_id) transport db freshId now
      (.ok r.1, r.2)

/-- An update of the stored row with a given `email_id`, as `save()` on a
fetched object performs. -/
def applyRetryById (db : List EmailLog) (id : Nat) : List EmailLog :=
  db.map (fun e => if e.email_id = id then increment_retry e else e)

/-- `EmailService.retry_failed_emails` (services.py:321-341): iterate the
`get_failed_emails` snapshot; entries at or above `max_retries` are skipped,
every other entry gets `increment_retry` (no resend is attempted — the
original message content is not retained) and is counted.  Returns the count
and the updated log table. -/
def retry_failed_emails (max_retries : Nat) (db : List EmailLog) :
    Nat × List EmailLog :=
  (get_failed_emails db).foldl
    (fun acc e =>
      if e.retry_count ≥ max_retries then acc
      else (acc.1 + 1, applyRetryById acc.2 e.email_id))
    (0, db)

/-- Equality on `Except` results is decidable componentwise. -/
instance instDecEqExcept [DecidableEq ε] [DecidableEq α] :
    DecidableEq (Except ε α) := fun a b =>
  match a, b with
  | .ok x, .ok y =>
    if h : x = y then .isTrue (by rw [h]) else .isFalse (by simp [h])
  | .error x, .error y =>
    if h : x = y then .isTrue (by rw [h]) else .isFalse (by simp [h])
  | .ok _, .error _ => .isFalse (by simp)
  | .error _, .ok _ => .isFalse (by simp)

/-! ## Concrete fixtures used by witnesses and counterexamples -/

/-- A draft submission parked at a given step, with a completed step 1. -/
def subAtStep (n : Nat) : Submission :=
  { submission_id := "IST-2025-001".data,
    author_name := "Jane Roe".data,
    author_email := "jane@example.com".data,
    current_step := n,
    status := .DRAFT,
    is_locked := false,
    submitted_at := none,
    step1 := some ⟨[], true, true, true⟩,
    step2 := none,
    step3_files := [],
    step4_reviewers := [],
    step5 := none }

/-- A finalized, locked submission. -/
def lockedSub : Submission :=
  { subAtStep 6 with status := .SUBMITTED, is_locked := true }

/-- A step 1 payload agreeing to everything. -/
def fullStep1Payload : Step1Payload :=
  ⟨some "ok".data, some true, some true, some true⟩

/-- A step 2 payload passing every validator (150-word abstract). -/
def goodStep2Payload : Step2Payload :=
  ⟨"A Valid Title".data, mkWords 150, "alpha, beta, gamma".data, "ai".data⟩

/-- A step 2 payload failing every validator. -/
def badStep2Payload : Step2Payload :=
  ⟨"T".data, "too short".data, "one".data, "physics".data⟩

/-- A valid step 3 file entry. -/
def goodFile : FilePayload := ⟨"paper.pdf".data, 1000, "pdf".data⟩

/-- A step 3 file entry with a forbidden type. -/
def badFile : FilePayload := ⟨"malware.exe".data, 1000, "exe".data⟩

/-- A valid step 4 reviewer entry. -/
def goodReviewer : ReviewerPayload :=
  ⟨"Dr".data, "John Quincy".data, "jq@university.edu".data,
    "Computer Science".data, "Example University".data⟩

/-- A valid step 5 payload. -/
def goodStep5Payload : Step5Payload := ⟨true, true, true⟩

/-- The service configuration fixture. -/
def cfg1 : EmailConfig :=
  ⟨"noreply@istpublications.com".data, "admin@istpublications.com".data,
    "https://example.org".data⟩

/-- An active confirmation template whose subject references a variable
absent from the confirmation context. -/
def badVarTemplate : EmailTemplate :=
  { template_id := 1,
    name := "confirmation".data,
    email_type := "SUBMISSION_CONFIRMATION",
    subject := "Hello ".data ++ braceL :: "foo".data ++ [braceR],
    body_html := "Body".data,
    body_text := none,
    is_active := true }

/-- An active confirmation template using only supplied variables. -/
def okTemplate : EmailTemplate :=
  { template_id := 2,
    name := "confirmation2".data,
    email_type := "SUBMISSION_CONFIRMATION",
    subject := "Received ".data ++ braceL :: "submission_number".data ++ [braceR],
    body_html := "Dear ".data ++ braceL :: "author_name".data ++ [braceR],
    body_text := none,
    is_active := true }

/-- A FAILED log row with four retries already recorded. -/
def failedLog4 : EmailLog :=
  { email_id := 10,
    recipient_email := "a@example.com".data,
    sender_email := "noreply@istpublications.com".data,
    subject := "s1".data,
    email_type := "GENERAL",
    submission_id := none,
    status := .FAILED,
    sent_at := none,
    failed_reason := some "SMTP Error: boom",
    read_count := 0,
    retry_count := 4,
    template_used := none,
    created_at := 1 }

/-- A FAILED log row already at the retry bound. -/
def failedLog5 : EmailLog :=
  { failedLog4 with
    email_id := 11
    subject := "s2".data
    retry_count := 5
    created_at := 2 }

/-- A successfully sent log row. -/
def sentLog : EmailLog :=
  { failedLog4 with
    email_id := 12
    subject := "s3".data
    status := .SENT
    sent_at := some 3
    failed_reason := none
    retry_count := 0
    created_at := 3 }

theorem pyWordCount_mkWords (n : Nat) : pyWordCount (mkWords n) = n := by
  induction n using mkWords.induct with
  | case1 => rfl
  | case2 => rfl
  | case3 n ih =>
    have hw : ('w'.isWhitespace) = false := by decide
    have hs : ((' ').isWhitespace) = true := by decide
    simp only [mkWords, pyWordCount, wordCountAux, hw, hs, if_false, if_true,
      Bool.false_eq_true, ih] at ih ⊢
    omega

theorem validate_abstract_ok_iff (s : Str) :
    exceptOk (validate_abstract s) = true ↔
      (pyStrip s ≠ [] ∧ hasHtmlTag (pyStrip s) = false ∧
       150 ≤ pyWordCount (pyStrip s) ∧ pyWordCount (pyStrip s) ≤ 200) := by
  by_cases hstrip : pyStrip s = []
  · have hg : (decide (s = []) || decide (pyStrip s = [])) = true := by
      simp [hstrip]
    simp [validate_abstract, hg, exceptOk, hstrip]
  · have hs0 : ¬ s = [] := by
      intro h
      subst h
      exact hstrip rfl
    have hg : (decide (s = []) || decide (pyStrip s = [])) = false := by
      simp [hstrip, hs0]
    by_cases htag : hasHtmlTag (pyStrip s) = true
    · simp [validate_abstract, hg, htag, exceptOk, hstrip, hs0]
    · simp only [Bool.not_eq_true] at htag
      by_cases hlo : pyWordCount (pyStrip s) < 150
      · simp [validate_abstract, wordCountValidator, hg, htag, hstrip, hs0,
          hlo, exceptOk]
      · by_cases hhi : pyWordCount (pyStrip s) > 200
        · simp [validate_abstract, wordCountValidator, hg, htag, hstrip, hs0,
            hlo, hhi, exceptOk]
        · simp [validate_abstract, wordCountValidator, hg, htag, hstrip, hs0,
            hlo, hhi, exceptOk]
          omega

/-- C10: step-2 abstract validation counts words by whitespace splitting
(`len(value.split())`) and, on markup-free non-blank input, accepts exactly
the abstracts of 150 to 200 words; in particular 149 words fail, 150 and 200
succeed, and 201 fail. -/
theorem claim_C10_abstract_word_range :
    (∀ s : Str, exceptOk (validate_abstract s) = true ↔
      (pyStrip s ≠ [] ∧ hasHtmlTag (pyStrip s) = false ∧
       150 ≤ pyWordCount (pyStrip s) ∧ pyWordCount (pyStrip s) ≤ 200)) ∧
    (∀ n, pyWordCount (mkWords n) = n) ∧
    exceptOk (validate_abstract (mkWords 149)) = false ∧
    exceptOk (validate_abstract (mkWords 150)) = true ∧
    exceptOk (validate_abstract (mkWords 200)) = true ∧
    exceptOk (validate_abstract (mkWords 201)) = false :=
  ⟨validate_abstract_ok_iff, pyWordCount_mkWords,
    by decide, by decide, by decide, by decide⟩

/-- C2: on a locked submission every mutating endpoint — the five step saves
and finalize — answers HTTP 403 with its lock message and returns the
submission (record and owned sub-records) unchanged; finalize also invokes no
email call. -/
theorem claim_C2_locked_rejects_all (sub : Submission) (p1 : Step1Payload)
    (p2 : Step2Payload) (files : List FilePayload)
    (reviewers : List ReviewerPayload) (p5 : Step5Payload) (now : Nat)
    (h : sub.is_locked = true) :
    saveStep1 sub p1 = (.locked "Submission is locked and cannot be edited", sub) ∧
    saveStep2 sub p2 = (.locked "Submission is locked and cannot be edited", sub) ∧
    saveStep3 sub files = (.locked "Submission is locked", sub) ∧
    saveStep4 sub reviewers = (.locked "Submission is locked", sub) ∧
    saveStep5 sub p5 = (.locked "Submission is locked", sub) ∧
    finalizeSubmission sub now = (.locked "Submission is already locked", sub, []) ∧
    (saveStep1 sub p1).1.httpStatus = 403 ∧
    (finalizeSubmission sub now).1.httpStatus = 403 := by
  simp [saveStep1, saveStep2, saveStep3, saveStep4, saveStep5,
    finalizeSubmission, h, StepOutcome.httpStatus]

/-- C2 witness: the rejections at a concrete locked submission. -/
theorem claim_C2_witness :
    saveStep1 lockedSub fullStep1Payload =
      (.locked "Submission is locked and cannot be edited", lockedSub) ∧
    finalizeSubmission lockedSub 7 =
      (.locked "Submission is already locked", lockedSub, []) := by
  have h := claim_C2_locked_rejects_all lockedSub fullStep1Payload
    goodStep2Payload [goodFile] [goodReviewer] goodStep5Payload 7 (by decide)
  exact ⟨h.1, h.2.2.2.2.2.1⟩

/-- C1 counterexample: with an unlocked submission at `current_step = 5`,
re-saving step 1 (a step `n ≤ current_step`) with a fully valid payload
succeeds and sets `current_step` to 2 — a decrease, refuting "never decreases
current_step". -/
theorem claim_C1_counterexample :
    (saveStep1 (subAtStep 5) fullStep1Payload).1.isOk = true ∧
    (subAtStep 5).current_step = 5 ∧
    (subAtStep 5).is_locked = false ∧
    (saveStep1 (subAtStep 5) fullStep1Payload).2.current_step = 2 := by
  refine ⟨by decide, by decide, by decide, by decide⟩

/-- C1 (amended): a successful `save_step(n)` stores the validated payload
(overwriting the singleton sub-record for steps 1, 2 and 5) and sets
`current_step` to exactly `n + 1` unconditionally — an increase by exactly 1
on forward progress, but a decrease to `n + 1` whenever `current_step` was
above it. -/
theorem claim_C1_amended_step_sets_next (sub : Submission) (p1 : Step1Payload)
    (p2 : Step2Payload) (files : List FilePayload)
    (reviewers : List ReviewerPayload) (p5 : Step5Payload) :
    ((saveStep1 sub p1).1.isOk = true →
      (saveStep1 sub p1).2.current_step = 2 ∧
      (saveStep1 sub p1).2.step1 =
        some (applyStep1 (sub.step1.getD emptyStep1) p1)) ∧
    ((saveStep2 sub p2).1.isOk = true →
      (saveStep2 sub p2).2.current_step = 3 ∧
      ∃ r, validateStep2 p2 = .ok r ∧ (saveStep2 sub p2).2.step2 = some r) ∧
    ((saveStep3 sub files).1.isOk = true →
      (saveStep3 sub files).2.current_step = 4) ∧
    ((saveStep4 sub reviewers).1.isOk = true →
      (saveStep4 sub reviewers).2.current_step = 5) ∧
    ((saveStep5 sub p5).1.isOk = true →
      (saveStep5 sub p5).2.current_step = 6 ∧
      ∃ r, validateStep5 p5 = .ok r ∧ (saveStep5 sub p5).2.step5 = some r) := by
  refine ⟨?_, ?_, ?_, ?_, ?_⟩
  · intro h
    by_cases hl : sub.is_locked = true
    · simp [saveStep1, hl, StepOutcome.isOk] at h
    · rcases hv : validateStep1 p1 with e | u
      · simp [saveStep1, hl, hv, StepOutcome.isOk] at h
      · simp [saveStep1, hl, hv]
  · intro h
    by_cases hl : sub.is_locked = true
    · simp [saveStep2, hl, StepOutcome.isOk] at h
    · by_cases hs : sub.current_step < 2
      · simp [saveStep2, hl, hs, StepOutcome.isOk] at h
      · rcases hv : validateStep2 p2 with e | r
        · simp [saveStep2, hl, hs, hv, StepOutcome.isOk] at h
        · simp [saveStep2, hl, hs, hv]
  · intro h
    by_cases hl : sub.is_locked = true
    · simp [saveStep3, hl, StepOutcome.isOk] at h
    · by_cases hs : sub.current_step < 3
      · simp [saveStep3, hl, hs, StepOutcome.isOk] at h
      · by_cases hf : files = []
        · simp [saveStep3, hl, hs, hf, StepOutcome.isOk] at h
        · rcases hv : saveFilesLoop sub files with ⟨e | errs, sub1⟩
          · simp [saveStep3, hl, hs, hf, hv]
          · simp [saveStep3, hl, hs, hf, hv, StepOutcome.isOk] at h
  · intro h
    by_cases hl : sub.is_locked = true
    · simp [saveStep4, hl, StepOutcome.isOk] at h
    · by_cases hs : sub.current_step < 4
      · simp [saveStep4, hl, hs, StepOutcome.isOk] at h
      · by_cases hr : reviewers = []
        · simp [saveStep4, hl, hs, hr, StepOutcome.isOk] at h
        · by_cases hn : reviewers.length > 2
          · simp [saveStep4, hl, hs, hr, hn, StepOutcome.isOk] at h
          · rcases hv : saveReviewersLoop sub 1 reviewers with ⟨e | errs, sub1⟩
            · simp [saveStep4, hl, hs, hr, hn, hv]
            · simp [saveStep4, hl, hs, hr, hn, hv, StepOutcome.isOk] at h
  · intro h
    by_cases hl : sub.is_locked = true
    · simp [saveStep5, hl, StepOutcome.isOk] at h
    · by_cases hs : sub.current_step < 5
      · simp [saveStep5, hl, hs, StepOutcome.isOk] at h
      · rcases hv : validateStep5 p5 with e | r
        · simp [saveStep5, hl, hs, hv, StepOutcome.isOk] at h
        · simp [saveStep5, hl, hs, hv]

/-- C1 amended witness: at a submission parked at step 5, a valid step-1
re-save lands on `current_step = 2`. -/
theorem claim_C1_amended_witness :
    (saveStep1 (subAtStep 5) fullStep1Payload).2.current_step = 2 ∧
    (saveStep1 (subAtStep 5) fullStep1Payload).2.step1 =
      some (applyStep1 ((subAtStep 5).step1.getD emptyStep1) fullStep1Payload) :=
  (claim_C1_amended_step_sets_next (subAtStep 5) fullStep1Payload
    goodStep2Payload [goodFile] [goodReviewer] goodStep5Payload).1 (by decide)

/-- C4: the finalize view never invokes the email pipeline — its email-call
trace is empty for every submission — even though on an unlocked submission
at step 6 it reports success with a message claiming emails were sent.  The
views.py:627 TODO comment marks the sending as unimplemented. -/
theorem claim_C4_finalize_sends_no_email :
    (∀ (sub : Submission) (now : Nat), (finalizeSubmission sub now).2.2 = []) ∧
    (subAtStep 6).is_locked = false ∧
    (subAtStep 6).current_step = 6 ∧
    (finalizeSubmission (subAtStep 6) 42).1 =
      .ok "Submission finalized successfully! Emails have been sent." ∧
    (finalizeSubmission (subAtStep 6) 42).2.1 =
      mark_as_submitted (subAtStep 6) 42 := by
  refine ⟨?_, by decide, by decide, by decide, by decide⟩
  intro sub now
  unfold finalizeSubmission
  split
  · rfl
  · split
    · rfl
    · rfl

theorem saveFilesLoop_currentStep (files : List FilePayload) :
    ∀ sub : Submission,
      ((saveFilesLoop sub files).2).current_step = sub.current_step := by
  induction files with
  | nil => intro sub; rfl
  | cons f rest ih =>
    intro sub
    rcases hv : validateFile f with e | r
    · simp [saveFilesLoop, hv]
    · simp [saveFilesLoop, hv, ih]

theorem saveReviewersLoop_currentStep (reviewers : List ReviewerPayload) :
    ∀ (sub : Submission) (idx : Nat),
      ((saveReviewersLoop sub idx reviewers).2).current_step = sub.current_step := by
  induction reviewers with
  | nil => intro sub idx; rfl
  | cons r rest ih =>
    intro sub idx
    rcases hv : validateReviewer idx r with e | rec
    · simp [saveReviewersLoop, hv]
    · simp [saveReviewersLoop, hv, ih]

/-- C5: on an unlocked submission, for each step n in 2..5 the save is
rejected with that step's order-violation message (HTTP 400) and the
submission left untouched exactly when `current_step < n`; when
`current_step ≥ n` the order rejection cannot occur. -/
theorem claim_C5_step_order_gate (sub : Submission) (p2 : Step2Payload)
    (files : List FilePayload) (reviewers : List ReviewerPayload)
    (p5 : Step5Payload) (h : sub.is_locked = false) :
    (sub.current_step < 2 →
      saveStep2 sub p2 = (.badRequest "You must complete Step 1 first", sub)) ∧
    (2 ≤ sub.current_step →
      (saveStep2 sub p2).1 ≠ .badRequest "You must complete Step 1 first") ∧
    (sub.current_step < 3 →
      saveStep3 sub files =
        (.badRequest "You must complete Steps 1 & 2 first", sub)) ∧
    (3 ≤ sub.current_step →
      (saveStep3 sub files).1 ≠
        .badRequest "You must complete Steps 1 & 2 first") ∧
    (sub.current_step < 4 →
      saveStep4 sub reviewers =
        (.badRequest "You must complete Steps 1-3 first", sub)) ∧
    (4 ≤ sub.current_step →
      (saveStep4 sub reviewers).1 ≠
        .badRequest "You must complete Steps 1-3 first") ∧
    (sub.current_step < 5 →
      saveStep5 sub p5 = (.badRequest "You must complete Steps 1-4 first", sub)) ∧
    (5 ≤ sub.current_step →
      (saveStep5 sub p5).1 ≠ .badRequest "You must complete Steps 1-4 first") ∧
    (∀ m, (StepOutcome.badRequest m).httpStatus = 400) := by
  refine ⟨?_, ?_, ?_, ?_, ?_, ?_, ?_, ?_, fun m => rfl⟩
  · intro hs
    simp [saveStep2, h, hs]
  · intro hs
    have hs' : ¬ sub.current_step < 2 := by omega
    rcases hv : validateStep2 p2 with e | r
    · simp [saveStep2, h, hs', hv]
    · simp [saveStep2, h, hs', hv]
  · intro hs
    simp [saveStep3, h, hs]
  · intro hs
    have hs' : ¬ sub.current_step < 3 := by omega
    by_cases hf : files = []
    · simp [saveStep3, h, hs', hf]
    · rcases hv : saveFilesLoop sub files with ⟨e | errs, sub1⟩
      · simp [saveStep3, h, hs', hf, hv]
      · simp [saveStep3, h, hs', hf, hv]
  · intro hs
    simp [saveStep4, h, hs]
  · intro hs
    have hs' : ¬ sub.current_step < 4 := by omega
    by_cases hr : reviewers = []
    · simp [saveStep4, h, hs', hr]
    · by_cases hn : reviewers.length > 2
      · simp [saveStep4, h, hs', hr, hn]
      · rcases hv : saveReviewersLoop sub 1 reviewers with ⟨e | errs, sub1⟩
        · simp [saveStep4, h, hs', hr, hn, hv]
        · simp [saveStep4, h, hs', hr, hn, hv]
  · intro hs
    simp [saveStep5, h, hs]
  · intro hs
    have hs' : ¬ sub.current_step < 5 := by omega
    rcases hv : validateStep5 p5 with e | r
    · simp [saveStep5, h, hs', hv]
    · simp [saveStep5, h, hs', hv]

/-- C5 witness: a submission at step 1 is order-rejected on step 2 and one at
step 3 cannot be order-rejected on step 3. -/
theorem claim_C5_witness :
    saveStep2 (subAtStep 1) goodStep2Payload =
      (.badRequest "You must complete Step 1 first", subAtStep 1) ∧
    (saveStep3 (subAtStep 3) [goodFile]).1 ≠
      .badRequest "You must complete Steps 1 & 2 first" := by
  have h1 := claim_C5_step_order_gate (subAtStep 1) goodStep2Payload [goodFile]
    [goodReviewer] goodStep5Payload (by decide)
  have h3 := claim_C5_step_order_gate (subAtStep 3) goodStep2Payload [goodFile]
    [goodReviewer] goodStep5Payload (by decide)
  exact ⟨h1.1 (by decide), h3.2.2.2.1 (by decide)⟩

/-- C6 counterexample: with a submission at step 3 and a `files` payload whose
first entry is valid and second invalid, the request is rejected as a
validation failure, yet a file sub-record for the first entry has been
created — the rejection is not mutation-free. -/
theorem claim_C6_counterexample :
    (saveStep3 (subAtStep 3) [goodFile, badFile]).1.isValidationFailed = true ∧
    (subAtStep 3).step3_files.length = 0 ∧
    (saveStep3 (subAtStep 3) [goodFile, badFile]).2.step3_files.length = 1 := by
  refine ⟨by decide, by decide, by decide⟩

/-- C6 (amended): a save rejected for payload-validation failure answers HTTP
400 with the field-to-message mapping and never changes `current_step`, but
sub-records may still have been created or partially saved: steps 1, 2 and 5
get-or-create the empty sub-record before validating, and steps 3 and 4
persist each valid list entry before rejecting at the first invalid one. -/
theorem claim_C6_amended_no_step_change (sub : Submission) (p1 : Step1Payload)
    (p2 : Step2Payload) (files : List FilePayload)
    (reviewers : List ReviewerPayload) (p5 : Step5Payload) :
    ((saveStep1 sub p1).1.isValidationFailed = true →
      (saveStep1 sub p1).2.current_step = sub.current_step ∧
      (saveStep1 sub p1).1.httpStatus = 400) ∧
    ((saveStep2 sub p2).1.isValidationFailed = true →
      (saveStep2 sub p2).2.current_step = sub.current_step ∧
      (saveStep2 sub p2).1.httpStatus = 400) ∧
    ((saveStep3 sub files).1.isValidationFailed = true →
      (saveStep3 sub files).2.current_step = sub.current_step ∧
      (saveStep3 sub files).1.httpStatus = 400) ∧
    ((saveStep4 sub reviewers).1.isValidationFailed = true →
      (saveStep4 sub reviewers).2.current_step = sub.current_step ∧
      (saveStep4 sub reviewers).1.httpStatus = 400) ∧
    ((saveStep5 sub p5).1.isValidationFailed = true →
      (saveStep5 sub p5).2.current_step = sub.current_step ∧
      (saveStep5 sub p5).1.httpStatus = 400) := by
  refine ⟨?_, ?_, ?_, ?_, ?_⟩
  · intro h
    by_cases hl : sub.is_locked = true
    · simp [saveStep1, hl, StepOutcome.isValidationFailed] at h
    · rcases hv : validateStep1 p1 with e | u
      · simp [saveStep1, hl, hv, StepOutcome.httpStatus]
      · simp [saveStep1, hl, hv, StepOutcome.isValidationFailed] at h
  · intro h
    by_cases hl : sub.is_locked = true
    · simp [saveStep2, hl, StepOutcome.isValidationFailed] at h
    · by_cases hs : sub.current_step < 2
      · simp [saveStep2, hl, hs, StepOutcome.isValidationFailed] at h
      · rcases hv : validateStep2 p2 with e | r
        · simp [saveStep2, hl, hs, hv, StepOutcome.httpStatus]
        · simp [saveStep2, hl, hs, hv, StepOutcome.isValidationFailed] at h
  · intro h
    by_cases hl : sub.is_locked = true
    · simp [saveStep3, hl, StepOutcome.isValidationFailed] at h
    · by_cases hs : sub.current_step < 3
      · simp [saveStep3, hl, hs, StepOutcome.isValidationFailed] at h
      · by_cases hf : files = []
        · simp [saveStep3, hl, hs, hf, StepOutcome.isValidationFailed] at h
        · rcases hv : saveFilesLoop sub files with ⟨e | errs, sub1⟩
          · simp [saveStep3, hl, hs, hf, hv, StepOutcome.isValidationFailed] at h
          · have hc := saveFilesLoop_currentStep files sub
            rw [hv] at hc
            simp only [saveStep3, hl, hs, hf, hv, StepOutcome.httpStatus,
              if_false, Bool.false_eq_true]
            simp [hl, hs, hf]
            exact hc
  · intro h
    by_cases hl : sub.is_locked = true
    · simp [saveStep4, hl, StepOutcome.isValidationFailed] at h
    · by_cases hs : sub.current_step < 4
      · simp [saveStep4, hl, hs, StepOutcome.isValidationFailed] at h
      · by_cases hr : reviewers = []
        · simp [saveStep4, hl, hs, hr, StepOutcome.isValidationFailed] at h
        · by_cases hn : reviewers.length > 2
          · simp [saveStep4, hl, hs, hr, hn, StepOutcome.isValidationFailed] at h
          · rcases hv : saveReviewersLoop sub 1 reviewers with ⟨e | errs, sub1⟩
            · simp [saveStep4, hl, hs, hr, hn, hv,
                StepOutcome.isValidationFailed] at h
            · have hc := saveReviewersLoop_currentStep reviewers sub 1
              rw [hv] at hc
              simp only [saveStep4, hl, hs, hr, hn, hv, StepOutcome.httpStatus,
                if_false, Bool.false_eq_true]
              simp [hl, hs, hr, hn]
              exact hc
  · intro h
    by_cases hl : sub.is_locked = true
    · simp [saveStep5, hl, StepOutcome.isValidationFailed] at h
    · by_cases hs : sub.current_step < 5
      · simp [saveStep5, hl, hs, StepOutcome.isValidationFailed] at h
      · rcases hv : validateStep5 p5 with e | r
        · simp [saveStep5, hl, hs, hv, StepOutcome.httpStatus]
        · simp [saveStep5, hl, hs, hv, StepOutcome.isValidationFailed] at h

/-- C6 amended witness: a step-2 save with an invalid payload at a concrete
submission keeps `current_step` at 2. -/
theorem claim_C6_amended_witness :
    (saveStep2 (subAtStep 2) badStep2Payload).2.current_step = 2 ∧
    (saveStep2 (subAtStep 2) badStep2Payload).1.httpStatus = 400 :=
  (claim_C6_amended_no_step_change (subAtStep 2) fullStep1Payload
    badStep2Payload [goodFile] [goodReviewer] goodStep5Payload).2.1 (by decide)

/-- C7: the generic send first creates a PENDING log row, appends exactly that
row's final state to the log table, and returns it: on transport success the
row is marked SENT with the send timestamp, on any transport exception it is
marked FAILED with the exception's description — nothing is raised past the
pipeline boundary (`send_email` is total). -/
theorem claim_C7_send_email_contract (cfg : EmailConfig)
    (recipient subject body_html : Str) (body_text : Option Str)
    (email_type : String) (submission_id : Option Str) (template : Option Nat)
    (transport : TransportResult) (db : List EmailLog) (freshId now : Nat) :
    (mkPendingLog cfg recipient subject email_type submission_id template
        freshId now).status = .PENDING ∧
    (send_email cfg recipient subject body_html body_text email_type
        submission_id template transport db freshId now).2 =
      db ++ [(send_email cfg recipient subject body_html body_text email_type
        submission_id template transport db freshId now).1] ∧
    (transport = .success →
      (send_email cfg recipient subject body_html body_text email_type
          submission_id template transport db freshId now).1 =
        mark_as_sent (mkPendingLog cfg recipient subject email_type
          submission_id template freshId now) now ∧
      (send_email cfg recipient subject body_html body_text email_type
          submission_id template transport db freshId now).1.status = .SENT ∧
      (send_email cfg recipient subject body_html body_text email_type
          submission_id template transport db freshId now).1.sent_at = some now) ∧
    (∀ e, transport = .smtpError e →
      (send_email cfg recipient subject body_html body_text email_type
          submission_id template transport db freshId now).1 =
        mark_as_failed (mkPendingLog cfg recipient subject email_type
          submission_id template freshId now) ("SMTP Error: " ++ e) ∧
      (send_email cfg recipient subject body_html body_text email_type
          submission_id template transport db freshId now).1.status = .FAILED ∧
      (send_email cfg recipient subject body_html body_text email_type
          submission_id template transport db freshId now).1.failed_reason =
        some ("SMTP Error: " ++ e)) ∧
    (∀ e, transport = .otherError e →
      (send_email cfg recipient subject body_html body_text email_type
          submission_id template transport db freshId now).1 =
        mark_as_failed (mkPendingLog cfg recipient subject email_type
          submission_id template freshId now) ("Unexpected error: " ++ e) ∧
      (send_email cfg recipient subject body_html body_text email_type
          submission_id template transport db freshId now).1.status = .FAILED ∧
      (send_email cfg recipient subject body_html body_text email_type
          submission_id template transport db freshId now).1.failed_reason =
        some ("Unexpected error: " ++ e)) := by
  cases transport <;>
    simp [send_email, mark_as_sent, mark_as_failed, mkPendingLog]

/-- C7 witness: a concrete SMTP failure yields a returned FAILED row carrying
the exception description. -/
theorem claim_C7_witness :
    (send_email cfg1 "a@b.co".data "Hi".data "Body".data none "GENERAL" none
        none (.smtpError "boom") [] 1 5).1.status = .FAILED ∧
    (send_email cfg1 "a@b.co".data "Hi".data "Body".data none "GENERAL" none
        none (.smtpError "boom") [] 1 5).1.failed_reason =
      some "SMTP Error: boom" := by
  have h := claim_C7_send_email_contract cfg1 "a@b.co".data "Hi".data
    "Body".data none "GENERAL" none none (.smtpError "boom") [] 1 5
  exact ⟨(h.2.2.2.1 "boom" rfl).2.1, (h.2.2.2.1 "boom" rfl).2.2⟩

theorem retryEligible_retry_count {e : EmailLog} (h : retryEligible e = true) :
    e.retry_count < 5 := by
  simp [retryEligible] at h
  exact h.2

theorem retry_foldl_spec (l : List EmailLog) :
    ∀ (cnt : Nat) (db0 : List EmailLog), (∀ e ∈ l, e.retry_count < 5) →
      l.foldl
        (fun acc e =>
          if e.retry_count ≥ 5 then acc
          else (acc.1 + 1, applyRetryById acc.2 e.email_id))
        (cnt, db0) =
      (cnt + l.length,
        l.foldl (fun d e => applyRetryById d e.email_id) db0) := by
  induction l with
  | nil => intro cnt db0 _; simp
  | cons e rest ih =>
    intro cnt db0 hlt
    have he : ¬ e.retry_count ≥ 5 := by
      have := hlt e (List.mem_cons_self e rest)
      omega
    simp only [List.foldl_cons, he, if_false]
    rw [ih (cnt + 1) (applyRetryById db0 e.email_id)
      (fun x hx => hlt x (List.mem_cons_of_mem e hx))]
    simp only [Prod.mk.injEq, List.length_cons, and_true]
    omega

theorem applyAll_eq_map (l : List EmailLog) :
    ∀ db0 : List EmailLog, (l.map (fun e => e.email_id)).Nodup →
      l.foldl (fun d e => applyRetryById d e.email_id) db0 =
        db0.map (fun x =>
          if x.email_id ∈ l.map (fun e => e.email_id) then increment_retry x
          else x) := by
  induction l with
  | nil =>
    intro db0 _
    simp
  | cons e rest ih =>
    intro db0 hnd
    rw [List.map_cons] at hnd
    have hnd' : (rest.map (fun e => e.email_id)).Nodup := (List.nodup_cons.mp hnd).2
    have hhead : e.email_id ∉ rest.map (fun x => x.email_id) :=
      (List.nodup_cons.mp hnd).1
    simp only [List.foldl_cons]
    rw [ih (applyRetryById db0 e.email_id) hnd']
    simp only [applyRetryById, List.map_map]
    refine List.map_congr_left ?_
    intro x _
    by_cases hx : x.email_id = e.email_id
    · have hinc : (increment_retry x).email_id = x.email_id := rfl
      simp [Function.comp, hx, hinc, hhead]
    · simp [Function.comp, hx]

/-- C8: with `max_retries = 5`, the retry driver processes exactly the FAILED
rows with fewer than 5 retries, taken in creation (FIFO) order; each selected
row gets its retry counter incremented by exactly 1 and its status set to
RETRYING (no resend happens — the table update is exactly this map), the
returned number is the count of processed rows, no row with
`retry_count ≥ 5` is ever selected, and a row that reaches 5 retries is
permanently ineligible — even if later marked FAILED again. -/
theorem claim_C8_retry_driver (db : List EmailLog)
    (hid : (db.map (fun e => e.email_id)).Nodup)
    (hsort : db.Pairwise (fun a b => a.created_at ≤ b.created_at)) :
    (retry_failed_emails 5 db).1 = (get_failed_emails db).length ∧
    (∀ e ∈ get_failed_emails db, e.status = .FAILED ∧ e.retry_count < 5) ∧
    (∀ e ∈ db, e.status = .FAILED → e.retry_count < 5 →
      e ∈ get_failed_emails db) ∧
    (get_failed_emails db).Pairwise (fun a b => a.created_at ≤ b.created_at) ∧
    (retry_failed_emails 5 db).2 =
      db.map (fun x => if retryEligible x then increment_retry x else x) ∧
    (∀ e : EmailLog, increment_retry e =
      { e with retry_count := e.retry_count + 1, status := .RETRYING }) ∧
    (∀ e : EmailLog, e.retry_count = 4 →
      (increment_retry e).retry_count = 5 ∧
      retryEligible (increment_retry e) = false ∧
      ∀ reason, retryEligible (mark_as_failed (increment_retry e) reason) = false) := by
  have hmem : ∀ e ∈ get_failed_emails db, e.status = .FAILED ∧ e.retry_count < 5 := by
    intro e he
    have := List.of_mem_filter he
    simpa [retryEligible] using this
  have hlt : ∀ e ∈ get_failed_emails db, e.retry_count < 5 :=
    fun e he => (hmem e he).2
  have hfold := retry_foldl_spec (get_failed_emails db) 0 db hlt
  have hfid : ((get_failed_emails db).map (fun e => e.email_id)).Nodup :=
    hid.sublist ((List.filter_sublist db).map (fun e => e.email_id))
  have happly := applyAll_eq_map (get_failed_emails db) db hfid
  refine ⟨?_, hmem, ?_, ?_, ?_, fun e => rfl, ?_⟩
  · show (retry_failed_emails 5 db).1 = (get_failed_emails db).length
    unfold retry_failed_emails
    rw [hfold]
    simp
  · intro e he hst hcnt
    exact List.mem_filter.mpr ⟨he, by simp [retryEligible, hst, hcnt]⟩
  · exact hsort.sublist (List.filter_sublist db)
  · unfold retry_failed_emails
    rw [hfold]
    simp only [happly]
    refine List.map_congr_left ?_
    intro x hx
    by_cases helig : retryEligible x = true
    · have hxin : x ∈ get_failed_emails db := List.mem_filter.mpr ⟨hx, helig⟩
      have : x.email_id ∈ (get_failed_emails db).map (fun e => e.email_id) :=
        List.mem_map.mpr ⟨x, hxin, rfl⟩
      simp [this, helig]
    · have hnin : x.email_id ∉ (get_failed_emails db).map (fun e => e.email_id) := by
        intro hcon
        rcases List.mem_map.mp hcon with ⟨y, hyin, hyid⟩
        have hydb : y ∈ db := List.mem_of_mem_filter hyin
        have hxy : y = x := List.inj_on_of_nodup_map hid hydb hx hyid
        rw [hxy] at hyin
        exact helig (List.of_mem_filter hyin)
      simp [hnin, helig]
  · intro e hcnt
    refine ⟨by simp [increment_retry, hcnt], ?_, ?_⟩
    · simp [retryEligible, increment_retry]
    · intro reason
      simp [retryEligible, increment_retry, mark_as_failed, hcnt]

/-- C8 witness: on a table holding a FAILED row at 4 retries, one at 5 and a
SENT row, the driver processes exactly the eligible rows and rewrites the
table by the eligibility map. -/
theorem claim_C8_witness :
    (retry_failed_emails 5 [failedLog4, failedLog5, sentLog]).1 =
      (get_failed_emails [failedLog4, failedLog5, sentLog]).length ∧
    (retry_failed_emails 5 [failedLog4, failedLog5, sentLog]).2 =
      ([failedLog4, failedLog5, sentLog].map
        (fun x => if retryEligible x then increment_retry x else x)) ∧
    (get_failed_emails [failedLog4, failedLog5, sentLog]).length = 1 := by
  have h := claim_C8_retry_driver [failedLog4, failedLog5, sentLog]
    (by decide) (by decide)
  exact ⟨h.1, h.2.2.2.2.1, by decide⟩

/-- C3 counterexample: with a unique active confirmation template whose
subject references the variable `foo`, absent from the context the sender
builds, `send_submission_confirmation` raises (returns the `Except.error`
carrying the ValueError) and writes no log row at all — it does not return a
FAILED log entry. -/
theorem claim_C3_counterexample :
    (send_submission_confirmation cfg1 [badVarTemplate] "a@b.co".data
        "IST-2025-001".data "Title".data "Jane".data "2025-01-01".data
        .success [] 1 5).1 =
      .error (.valueError (missingVarMessage "foo".data)) ∧
    (send_submission_confirmation cfg1 [badVarTemplate] "a@b.co".data
        "IST-2025-001".data "Title".data "Jane".data "2025-01-01".data
        .success [] 1 5).2 = [] := by
  refine ⟨by decide, by decide⟩

/-- C3 (amended): when the resolved template references a variable absent
from the supplied context, the convenience sender raises a ValueError whose
message names the missing variable, before any log entry is created: the log
table is returned unchanged and no FAILED entry exists for the attempt. -/
theorem claim_C3_amended_missing_variable_raises (cfg : EmailConfig)
    (tdb : List EmailTemplate) (recipient submission_number article_title
    author_name submission_date : Str) (transport : TransportResult)
    (db : List EmailLog) (freshId now : Nat) (t : EmailTemplate) (name : Str)
    (ht : get_template tdb "SUBMISSION_CONFIRMATION" = .ok (some t))
    (hr : EmailTemplate.render t
        (submissionConfirmationContext cfg submission_number article_title
          author_name submission_date) = .error (.missingVariable name)) :
    send_submission_confirmation cfg tdb recipient submission_number
        article_title author_name submission_date transport db freshId now =
      (.error (.valueError (missingVarMessage name)), db) := by
  simp only [send_submission_confirmation, ht, hr, renderErrorMessage]

/-- C3 amended witness: the missing-variable ValueError at the concrete
template fixture. -/
theorem claim_C3_amended_witness :
    send_submission_confirmation cfg1 [badVarTemplate] "a@b.co".data
        "IST-2025-001".data "Title".data "Jane".data "2025-01-01".data
        .success [] 1 5 =
      (.error (.valueError (missingVarMessage "foo".data)), []) :=
  claim_C3_amended_missing_variable_raises cfg1 [badVarTemplate] "a@b.co".data
    "IST-2025-001".data "Title".data "Jane".data "2025-01-01".data
    .success [] 1 5 badVarTemplate "foo".data (by decide) (by decide)

/-- C9 counterexample: with two simultaneously active confirmation templates,
template resolution does not succeed with the first match — the lookup
raises `MultipleObjectsReturned`, and so does the convenience sender. -/
theorem claim_C9_counterexample :
    (([badVarTemplate, okTemplate] : List EmailTemplate).filter
        (fun t => decide (t.email_type = "SUBMISSION_CONFIRMATION") &&
          t.is_active)).length = 2 ∧
    get_template [badVarTemplate, okTemplate] "SUBMISSION_CONFIRMATION" =
      .error .multipleObjectsReturned ∧
    (send_submission_confirmation cfg1 [badVarTemplate, okTemplate]
        "a@b.co".data "IST-2025-001".data "Title".data "Jane".data
        "2025-01-01".data .success [] 1 5).1 =
      .error .multipleObjectsReturned := by
  refine ⟨by decide, by decide, by decide⟩

/-- C9 (amended): template resolution succeeds exactly when one single active
template of the requested type exists; with none, `get_template` yields
`None` and the confirmation sender raises its ValueError; with two or more
active matches `EmailTemplate.objects.get` raises `MultipleObjectsReturned`
instead of picking the first. -/
theorem claim_C9_amended_resolution (tdb : List EmailTemplate) (ty : String) :
    (tdb.filter (fun t => decide (t.email_type = ty) && t.is_active) = [] →
      get_template tdb ty = .ok none) ∧
    (∀ t, tdb.filter (fun t => decide (t.email_type = ty) && t.is_active) = [t] →
      get_template tdb ty = .ok (some t)) ∧
    (∀ t u rest,
      tdb.filter (fun t => decide (t.email_type = ty) && t.is_active) =
        t :: u :: rest →
      get_template tdb ty = .error .multipleObjectsReturned) ∧
    (get_template tdb "SUBMISSION_CONFIRMATION" = .ok none →
      ∀ (cfg : EmailConfig) (recipient submission_number article_title
        author_name submission_date : Str) (transport : TransportResult)
        (db : List EmailLog) (freshId now : Nat),
        send_submission_confirmation cfg tdb recipient submission_number
            article_title author_name submission_date transport db freshId now =
          (.error (.valueError "Submission confirmation template not found"), db)) := by
  refine ⟨?_, ?_, ?_, ?_⟩
  · intro h
    unfold get_template
    rw [h]
  · intro t h
    unfold get_template
    rw [h]
  · intro t u rest h
    unfold get_template
    rw [h]
  · intro h cfg recipient submission_number article_title author_name
      submission_date transport db freshId now
    unfold send_submission_confirmation
    rw [h]

/-- C9 amended witness: a unique active template resolves to it, and an empty
template table makes the sender raise the not-found ValueError. -/
theorem claim_C9_amended_witness :
    get_template [okTemplate] "SUBMISSION_CONFIRMATION" = .ok (some okTemplate) ∧
    send_submission_confirmation cfg1 [] "a@b.co".data "IST-2025-001".data
        "Title".data "Jane".data "2025-01-01".data .success [] 1 5 =
      (.error (.valueError "Submission confirmation template not found"), []) := by
  refine ⟨?_, ?_⟩
  · exact (claim_C9_amended_resolution [okTemplate] "SUBMISSION_CONFIRMATION").2.1
      okTemplate (by decide)
  · exact (claim_C9_amended_resolution [] "SUBMISSION_CONFIRMATION").2.2.2
      (by decide) cfg1 "a@b.co".data "IST-2025-001".data "Title".data
      "Jane".data "2025-01-01".data .success [] 1 5
